import Mathlib

/-!
Verification of the PowerPoint table data-set adapter
(`kedro_tutorial/io/powerpoint/powerpoint_local.py`).

The Python module is shallowly embedded: Python strings become `List Char`,
cells/rows/tables/slides/presentations become Lean structures, pandas frames
become a `DataFrame` structure of textual values, and fallible Python code
(assertions, `IndexError`, `ValueError`, `DataSetError`, ...) returns
`Except PyErr`.
-/

namespace PPT

/-- Python strings are modelled as lists of characters. -/
abbrev Str := List Char

/-- Python `line.split(",")`: split a string at every comma; always returns at
least one (possibly empty) field. -/
def splitComma : Str → List Str
  | [] => [[]]
  | c :: cs =>
    if c = ',' then [] :: splitComma cs
    else
      match splitComma cs with
      | [] => [[c]]
      | f :: r => (c :: f) :: r

/-- Python `",".join(fields)`. -/
def joinComma : List Str → Str
  | [] => []
  | [x] => x
  | x :: xs => x ++ ',' :: joinComma xs

/-- Font attributes copied by the cell formatter: name, point size, bold,
italic and the colour theme of the run. -/
structure Font where
  name : Str
  size : Nat
  bold : Bool
  italic : Bool
  themeColor : Nat
  deriving DecidableEq, Repr

/-- A cell fill: background (transparent), solid colour, or any other fill
type (which the formatter leaves untouched). -/
inductive Fill where
  | background
  | solid (rgb : Nat)
  | other
  deriving DecidableEq, Repr

/-- A text run inside a cell's first paragraph. -/
structure Run where
  text : Str
  font : Font
  deriving DecidableEq, Repr

/-- A table cell: fill, four margins, and the runs of its first paragraph. -/
structure Cell where
  fill : Fill
  marginBottom : Int
  marginLeft : Int
  marginRight : Int
  marginTop : Int
  runs : List Run
  deriving DecidableEq, Repr

/-- `cell.text`: the concatenated text of the cell's runs. -/
def Cell.text (c : Cell) : Str := (c.runs.map Run.text).flatten

/-- A table row: its height and its cells. -/
structure Row where
  height : Nat
  cells : List Cell
  deriving DecidableEq, Repr

/-- A table: a list of rows. -/
structure Table where
  rows : List Row
  deriving DecidableEq, Repr

/-- A graphic frame holding a table, with its position and size on the slide. -/
structure GraphicFrame where
  left : Int
  top : Int
  width : Int
  height : Int
  table : Table
  deriving DecidableEq, Repr

/-- A shape on a slide: either a table-bearing graphic frame or any other
shape (`shape.has_table` is false for the latter). -/
inductive Shape where
  | tbl (gf : GraphicFrame)
  | other
  deriving DecidableEq, Repr

/-- `shape.has_table`. -/
def Shape.has_table : Shape → Bool
  | .tbl _ => true
  | .other => false

/-- A slide: its shapes, and the text of its title placeholder. -/
structure Slide where
  shapes : List Shape
  title : Option Str
  deriving DecidableEq, Repr

/-- A slide-id entry of the presentation's slide list: the relationship id
`rId` and the slide it references. -/
structure SlideEntry where
  rId : Nat
  slide : Slide
  deriving DecidableEq, Repr

/-- A presentation: its ordered slide list and the relationship ids present
in the document package. -/
structure Presentation where
  slides : List SlideEntry
  rels : List Nat
  deriving DecidableEq, Repr

/-- The Python-level failures the adapter can raise. -/
inductive PyErr where
  | dataSetError (msg : Str)
  | assertionError
  | indexError
  | valueError
  | emptyDataError
  | stopIteration
  deriving DecidableEq, Repr

/-- The message of the missing-table `DataSetError`. -/
def missingTableMsg : Str := "slide does not contain a table".data

/-- A tabular dataset: column labels, index labels and the rows of values,
all textual (the adapter round-trips through comma-separated text). -/
structure DataFrame where
  columns : List Str
  index : List Str
  rows : List (List Str)
  deriving DecidableEq, Repr

/-- Placeholder run used only to express the first run of a non-empty run
list (`runs.headD defaultRun`); never reachable when the run list is empty,
because `formatCell` fails first. -/
def defaultRun : Run :=
  { text := []
    font := { name := [], size := 0, bold := false, italic := false, themeColor := 0 } }

/-- A freshly created cell of a new table (`slide.shapes.add_table`): no runs
yet, default fill and margins. -/
def blankCell : Cell :=
  { fill := .other
    marginBottom := 0, marginLeft := 0, marginRight := 0, marginTop := 0
    runs := [] }

/-- The effect of one iteration of `_format_cells` on one target cell, given
that the exemplar `like` has a first run: copy the fill (background or solid;
other fill types are left as they are), copy the four margins, append a run
holding `v`, and give it the exemplar's first run's font. -/
def styledCell (like c : Cell) (v : Str) : Cell :=
  { fill :=
      match like.fill with
      | .background => .background
      | .solid rgb => .solid rgb
      | .other => c.fill
    marginBottom := like.marginBottom
    marginLeft := like.marginLeft
    marginRight := like.marginRight
    marginTop := like.marginTop
    runs := c.runs ++ [{ text := v, font := (like.runs.headD defaultRun).font }] }

/-- One iteration of the `_format_cells` loop body: reading
`like.text_frame.paragraphs[0].runs[0]` raises `IndexError` when the exemplar
has no run; otherwise the cell is styled and the value written. -/
def formatCell (like c : Cell) (v : Str) : Except PyErr Cell :=
  match like.runs with
  | [] => .error .indexError
  | _ :: _ => .ok (styledCell like c v)

/-- The `zip(row.cells, line.split(","))` loop of `_format_cells`: pairs
beyond the shorter of the two sequences are never visited, so trailing
unpaired cells are returned unchanged and trailing unpaired values are
dropped. -/
def format_cells_list (like : Cell) : List Cell → List Str → Except PyErr (List Cell)
  | c :: cs, v :: vs => do
    let c' ← formatCell like c v
    let cs' ← format_cells_list like cs vs
    pure (c' :: cs')
  | cs, _ => .ok cs

/-- `_format_cells(row, line, like)`. -/
def format_cells (row : Row) (line : Str) (like : Cell) : Except PyErr Row :=
  (format_cells_list like row.cells (splitComma line)).map
    (fun cs => { row with cells := cs })

/-- `PowerPointLocalDataSet._get_table(slide)`: scan the slide's shapes in
order and return the first one bearing a table; raise
`DataSetError("slide does not contain a table")` if there is none. -/
def get_table : List Shape → Except PyErr GraphicFrame
  | [] => .error (.dataSetError missingTableMsg)
  | .tbl gf :: _ => .ok gf
  | .other :: rest => get_table rest

/-- The merged load options kept by the adapter: the slide index and the
`index_col` passed to `pandas.read_csv`. -/
structure LoadArgsM where
  slide_name : Nat
  index_col : Nat
  deriving DecidableEq, Repr

/-- The recognised keys a caller may put in the `load_args` dict (absent keys
are `none`). -/
structure UserLoadArgs where
  slide_name : Option Nat
  index_col : Option Nat
  deriving DecidableEq, Repr

/-- `__init__`'s merge of the load options:
`{**{"slide_name": 0, "index_col": 0}, **load_args}` — user-supplied keys
override the defaults. -/
def initLoadArgs : Option UserLoadArgs → LoadArgsM
  | none => { slide_name := 0, index_col := 0 }
  | some u => { slide_name := u.slide_name.getD 0, index_col := u.index_col.getD 0 }

/-- The merged save options kept by the adapter: the effective value of
`save_args.get("index", True)` and the optional title override. -/
structure SaveArgsM where
  index : Bool
  title : Option Str
  deriving DecidableEq, Repr

/-- The recognised keys a caller may put in the `save_args` dict. -/
structure UserSaveArgs where
  index : Option Bool
  title : Option Str
  deriving DecidableEq, Repr

/-- `__init__`'s merge of the save options:
`{**{"title": None}, **save_args}`; `index` is later read with
`save_args.get("index", True)`, so an absent key acts as `true`. -/
def initSaveArgs : Option UserSaveArgs → SaveArgsM
  | none => { index := true, title := none }
  | some u => { index := u.index.getD true, title := u.title }

/-- `pandas.DataFrame.to_csv(...).splitlines()`: the header line followed by
one line per row; with `index` enabled each line is prefixed by the (unnamed)
index field. -/
def to_csv (df : DataFrame) (index : Bool) : List Str :=
  if index then
    joinComma ([] :: df.columns) ::
      (df.index.zip df.rows).map (fun p => joinComma (p.1 :: p.2))
  else
    joinComma df.columns :: df.rows.map joinComma

/-- `pandas.read_csv(buffer, index_col=ic)` on a list of comma-separated
lines: the first line is the header (the field at position `ic` names the
index and is dropped from the columns); every further line contributes its
field at position `ic` to the index and the remaining fields to the row.
An empty buffer raises `EmptyDataError`. -/
def read_csv (lines : List Str) (index_col : Nat) : Except PyErr DataFrame :=
  match lines with
  | [] => .error .emptyDataError
  | h :: rest =>
    .ok { columns := (splitComma h).eraseIdx index_col
          index := rest.map (fun l => (splitComma l).getD index_col [])
          rows := rest.map (fun l => (splitComma l).eraseIdx index_col) }

/-- `PowerPointLocalDataSet._load()`: select the slide at index
`slide_name` (an invalid index raises `IndexError`), locate its table,
serialise the table into comma-separated lines (one per table row, each
cell's text joined by commas), and parse the buffer with
`pandas.read_csv(..., index_col=args.index_col)`. -/
def load (prs : Presentation) (args : LoadArgsM) : Except PyErr DataFrame :=
  match prs.slides[args.slide_name]? with
  | none => .error .indexError
  | some e => do
    let gf ← get_table e.slide.shapes
    let lines := gf.table.rows.map (fun r => joinComma (r.cells.map Cell.text))
    read_csv lines args.index_col

/-- `PowerPointLocalDataSet._get_template()`: materialise
`list(enumerate(prs.slides._sldIdLst))`, delete entry 40 from that list
(`IndexError` when the template has at most 40 slides), then walk the
remaining entries in reversed (descending-index) order, dropping each
entry's relationship from the package and deleting the slide at the
entry's original index. -/
def get_template (prs : Presentation) : Except PyErr Presentation :=
  let slide_id_list := prs.slides.enum
  if 40 < slide_id_list.length then
    .ok ((slide_id_list.eraseIdx 40).reverse.foldl
      (fun p ie => { slides := p.slides.eraseIdx ie.1, rels := p.rels.erase ie.2.rId })
      prs)
  else
    .error .indexError

/-- The title override of `_save`: `slide.shapes.title.text = title` when a
title was configured. -/
def applyTitle (t : Option Str) (s : Slide) : Slide :=
  match t with
  | some v => { s with title := some v }
  | none => s

/-- The net effect of `add_table` + `old_element.addnext(new_element)` +
`remove(old_element)` on the slide's shape list: the first table-bearing
shape is replaced in place by the new graphic frame. -/
def replaceTable : List Shape → GraphicFrame → List Shape
  | [], _ => []
  | .tbl _ :: rest, g => .tbl g :: rest
  | .other :: rest, g => .other :: replaceTable rest g

/-- The `for (row, line), band in zip(rows_and_lines, cycle(bands))` loop:
rows are formatted in order, alternating between the two band exemplars
starting with the first one. -/
def format_rows : List (Row × Str) → Cell → Cell → Except PyErr (List Row)
  | [], _, _ => .ok []
  | (r, l) :: rest, b1, b2 => do
    let r' ← format_cells r l b1
    let rest' ← format_rows rest b2 b1
    pure (r' :: rest')

/-- A freshly created row of the replacement table: the old header row's
height, `n` blank cells. -/
def newBlankRow (h : Nat) (n : Nat) : Row :=
  { height := h, cells := List.replicate n blankCell }

/-- The table-rebuilding tail of `_save`, after the template has been pruned,
the title applied, the exemplar table located and its first three rows
unpacked: create the `(nrows+1) × (ncols+1)` replacement table at the old
table's position, swap it into the shape list, write the CSV lines into it
(header row styled from `header_row.cells[1]`, data rows styled from the
alternating band exemplars `first_data_row.cells[0]` /
`second_data_row.cells[0]`). -/
def saveBuild (args : SaveArgsM) (df : DataFrame) (rId : Nat) (rels' : List Nat)
    (slide1 : Slide) (old_table : GraphicFrame)
    (header_row first_data_row second_data_row : Row) : Except PyErr Presentation :=
  match (List.replicate (df.rows.length + 1)
      (newBlankRow header_row.height (df.columns.length + 1))).zip
      (to_csv df args.index) with
  | [] => .error .stopIteration
  | (row, line) :: rest =>
    match header_row.cells[1]? with
    | none => .error .indexError
    | some likeH =>
      (format_cells row line likeH).bind (fun row0f =>
        match first_data_row.cells[0]?, second_data_row.cells[0]? with
        | some band1, some band2 =>
          (format_rows rest band1 band2).map (fun restf =>
            { slides := [{ rId := rId
                           slide := { shapes := replaceTable slide1.shapes
                                        { left := old_table.left
                                          top := old_table.top
                                          width := old_table.width
                                          height := (df.rows.length + 1) * header_row.height
                                          table := { rows := row0f :: restf } }
                                      title := slide1.title } }]
              rels := rels' })
        | _, _ => .error .indexError)

/-- `PowerPointLocalDataSet._save(data)`: assert that the index column is
emitted, prune the template, unpack its single slide (`[slide] = prs.slides`
raises `ValueError` otherwise), apply the title override, locate the
exemplar table, unpack its first three rows
(`header_row, first_data_row, second_data_row, *_ = old_table.table.rows`
raises `ValueError` when fewer than three exist) and rebuild the table.
The returned presentation is the document persisted by `prs.save`. -/
def save (tmpl : Presentation) (args : SaveArgsM) (df : DataFrame) :
    Except PyErr Presentation :=
  if !args.index then .error .assertionError else
    (get_template tmpl).bind (fun prs =>
      match prs.slides with
      | [entry] =>
        (get_table (applyTitle args.title entry.slide).shapes).bind (fun old_table =>
          match old_table.table.rows with
          | header_row :: first_data_row :: second_data_row :: _ =>
            saveBuild args df entry.rId prs.rels (applyTitle args.title entry.slide)
              old_table header_row first_data_row second_data_row
          | _ => .error .valueError)
      | _ => .error .valueError)

/-- Observer: the table of the presentation's single slide, when the
presentation has exactly one slide bearing a table. -/
def savedTable (p : Presentation) : Option Table :=
  match p.slides with
  | [e] =>
    match get_table e.slide.shapes with
    | .ok gf => some gf.table
    | .error _ => none
  | _ => none

/-- Observer: the style-relevant parts of a cell — its fill, its four
margins and the font of its last run (the run the formatter appends). -/
def styleOf (c : Cell) : Fill × Int × Int × Int × Int × Option Font :=
  (c.fill, c.marginBottom, c.marginLeft, c.marginRight, c.marginTop,
    c.runs.getLast?.map Run.font)

/-- The style a fresh cell ends up with after being formatted from the
exemplar `like`. -/
def appliedStyle (like : Cell) : Fill × Int × Int × Int × Int × Option Font :=
  styleOf (styledCell like blankCell [])

/-- Modelled from the spec: "for data row index i (0-based) in the saved
table, its styling exemplar is band[i mod 2]" — even data-row index gets the
first band exemplar, odd the second. -/
def specBand (b1 b2 : Cell) (i : Nat) : Cell :=
  if i % 2 = 0 then b1 else b2

/-- The row produced by a successful `_format_cells` call: the first
`min(cells, values)` cells styled and written, the remaining cells kept. -/
def styledRow (like : Cell) (r : Row) (line : Str) : Row :=
  { r with cells := List.zipWith (styledCell like) r.cells (splitComma line) ++
                    r.cells.drop (splitComma line).length }

/-- The rows produced by the band-alternation loop when every
`_format_cells` call succeeds. -/
def styledRows : Cell → Cell → List (Row × Str) → List Row
  | _, _, [] => []
  | b1, b2, (r, l) :: rest => styledRow b1 r l :: styledRows b2 b1 rest

/-- The rows of the replacement table when every formatting step succeeds:
the header line styled from the header exemplar, then the data lines styled
from the alternating band exemplars. -/
def expectedRows (df : DataFrame) (header_row : Row)
    (likeH band1 band2 : Cell) : List Row :=
  styledRow likeH (newBlankRow header_row.height (df.columns.length + 1))
      (joinComma ([] :: df.columns)) ::
    styledRows band1 band2
      ((List.replicate df.rows.length
          (newBlankRow header_row.height (df.columns.length + 1))).zip
        ((df.index.zip df.rows).map (fun p => joinComma (p.1 :: p.2))))

/-- The presentation `_save` produces when every step succeeds. -/
def expectedSave (df : DataFrame) (rId : Nat) (rels' : List Nat)
    (slide1 : Slide) (old_table : GraphicFrame) (header_row : Row)
    (likeH band1 band2 : Cell) : Presentation :=
  { slides := [{ rId := rId
                 slide := { shapes := replaceTable slide1.shapes
                              { left := old_table.left
                                top := old_table.top
                                width := old_table.width
                                height := (df.rows.length + 1) * header_row.height
                                table := { rows := expectedRows df header_row likeH band1 band2 } }
                            title := slide1.title } }]
    rels := rels' }

end PPT

deriving instance DecidableEq for Except

namespace PPT

/-! String lemmas: splitting at commas inverts joining with commas. -/

theorem splitComma_ne_nil (s : Str) : splitComma s ≠ [] := by
  induction s with
  | nil => simp [splitComma]
  | cons c cs ih =>
    simp only [splitComma]
    split
    · simp
    · cases h : splitComma cs with
      | nil => simp
      | cons f r => simp

theorem splitComma_no_comma (s : Str) (h : ',' ∉ s) : splitComma s = [s] := by
  induction s with
  | nil => rfl
  | cons c cs ih =>
    simp only [List.mem_cons, not_or] at h
    simp only [splitComma, if_neg (Ne.symm h.1)]
    rw [ih h.2]

theorem splitComma_append_comma (s t : Str) (h : ',' ∉ s) :
    splitComma (s ++ ',' :: t) = s :: splitComma t := by
  induction s with
  | nil => simp [splitComma]
  | cons c cs ih =>
    simp only [List.mem_cons, not_or] at h
    simp only [List.cons_append, splitComma, if_neg (Ne.symm h.1), List.append_eq]
    rw [ih h.2]

theorem splitComma_joinComma (l : List Str) (hne : l ≠ [])
    (h : ∀ f ∈ l, ',' ∉ f) : splitComma (joinComma l) = l := by
  induction l with
  | nil => exact absurd rfl hne
  | cons x xs ih =>
    cases xs with
    | nil => exact splitComma_no_comma x (h x (List.mem_cons_self x []))
    | cons y ys =>
      show splitComma (x ++ ',' :: joinComma (y :: ys)) = x :: (y :: ys)
      rw [splitComma_append_comma x _ (h x (List.mem_cons_self x _))]
      rw [ih (by simp) (fun f hf => h f (List.mem_cons_of_mem x hf))]

theorem joinComma_splitComma (s : Str) : joinComma (splitComma s) = s := by
  induction s with
  | nil => rfl
  | cons c cs ih =>
    simp only [splitComma]
    split
    · next hc =>
      subst hc
      show joinComma ([] :: splitComma cs) = ',' :: cs
      cases h : splitComma cs with
      | nil => exact absurd h (splitComma_ne_nil cs)
      | cons f r =>
        show [] ++ ',' :: joinComma (f :: r) = ',' :: cs
        rw [← h, ih]
        rfl
    · next hc =>
      cases h : splitComma cs with
      | nil => exact absurd h (splitComma_ne_nil cs)
      | cons f r =>
        cases r with
        | nil =>
          show c :: f = c :: cs
          have := ih
          rw [h] at this
          simpa using this
        | cons g r' =>
          show (c :: f) ++ ',' :: joinComma (g :: r') = c :: cs
          have := ih
          rw [h] at this
          simpa using this

theorem length_splitComma_append_comma (s t : Str) :
    (splitComma (s ++ ',' :: t)).length =
      (splitComma s).length + (splitComma t).length := by
  induction s with
  | nil =>
    have e : splitComma (([] : Str) ++ ',' :: t) = [] :: splitComma t := by
      simp [splitComma]
    rw [e]
    show (splitComma t).length + 1 = ([[]] : List Str).length + (splitComma t).length
    simp [Nat.add_comm]
  | cons c cs ih =>
    by_cases hc : c = ','
    · subst hc
      have e1 : splitComma (',' :: (cs ++ ',' :: t)) = [] :: splitComma (cs ++ ',' :: t) := by
        simp [splitComma]
      have e2 : splitComma (',' :: cs) = [] :: splitComma cs := by
        simp [splitComma]
      rw [List.cons_append, e1, e2]
      simp only [List.length_cons]
      omega
    · cases h1 : splitComma (cs ++ ',' :: t) with
      | nil => exact absurd h1 (splitComma_ne_nil _)
      | cons f r =>
        cases h2 : splitComma cs with
        | nil => exact absurd h2 (splitComma_ne_nil _)
        | cons g q =>
          have e1 : splitComma ((c :: cs) ++ ',' :: t) = (c :: f) :: r := by
            simp only [List.cons_append, splitComma, if_neg hc, List.append_eq, h1]
          have e2 : splitComma (c :: cs) = (c :: g) :: q := by
            simp only [splitComma, if_neg hc, h2]
          rw [e1, e2]
          rw [h1, h2] at ih
          simp only [List.length_cons] at ih ⊢
          omega

theorem le_length_splitComma_joinComma (l : List Str) (hne : l ≠ []) :
    l.length ≤ (splitComma (joinComma l)).length := by
  induction l with
  | nil => exact absurd rfl hne
  | cons x xs ih =>
    cases xs with
    | nil =>
      cases h : splitComma (joinComma [x]) with
      | nil => exact absurd h (splitComma_ne_nil _)
      | cons f r => simp
    | cons y ys =>
      show (x :: y :: ys).length ≤ (splitComma (x ++ ',' :: joinComma (y :: ys))).length
      rw [length_splitComma_append_comma]
      have h1 : 1 ≤ (splitComma x).length := by
        cases h : splitComma x with
        | nil => exact absurd h (splitComma_ne_nil _)
        | cons f r => simp
      have h2 := ih (by simp)
      simp only [List.length_cons] at h2 ⊢
      omega

/-! Cell-formatter lemmas. -/

theorem formatCell_ok (like c : Cell) (v : Str) (h : like.runs ≠ []) :
    formatCell like c v = .ok (styledCell like c v) := by
  cases hr : like.runs with
  | nil => exact absurd hr h
  | cons r rs => simp [formatCell, hr]

theorem format_cells_list_ok (like : Cell) (h : like.runs ≠ []) :
    ∀ (cells : List Cell) (vals : List Str),
      format_cells_list like cells vals =
        .ok (List.zipWith (styledCell like) cells vals ++ cells.drop vals.length)
  | [], [] => rfl
  | [], _ :: _ => rfl
  | _ :: _, [] => by simp [format_cells_list]
  | c :: cs, v :: vs => by
    simp only [format_cells_list, formatCell_ok like c v h,
      format_cells_list_ok like h cs vs]
    rfl

theorem format_cells_ok (row : Row) (line : Str) (like : Cell)
    (h : like.runs ≠ []) :
    format_cells row line like = .ok (styledRow like row line) := by
  simp [format_cells, format_cells_list_ok like h, styledRow, Except.map]

theorem format_cells_err (row : Row) (line : Str) (like : Cell)
    (hruns : like.runs = []) (hcells : row.cells ≠ []) :
    format_cells row line like = .error .indexError := by
  cases hc : row.cells with
  | nil => exact absurd hc hcells
  | cons c cs =>
    cases hs : splitComma line with
    | nil => exact absurd hs (splitComma_ne_nil _)
    | cons v vs =>
      simp [format_cells, hc, hs, format_cells_list, formatCell, hruns,
        Except.map, Bind.bind, Except.bind]

theorem format_rows_ok (b1 b2 : Cell) (rl : List (Row × Str))
    (h1 : b1.runs ≠ []) (h2 : b2.runs ≠ []) :
    format_rows rl b1 b2 = .ok (styledRows b1 b2 rl) := by
  induction rl generalizing b1 b2 with
  | nil => rfl
  | cons p rest ih =>
    obtain ⟨r, l⟩ := p
    simp only [format_rows, format_cells_ok r l b1 h1, ih b2 b1 h2 h1, styledRows]
    rfl

/-- The number of cells is unchanged by formatting. -/
theorem styledRow_length (like : Cell) (r : Row) (line : Str) :
    (styledRow like r line).cells.length = r.cells.length := by
  simp only [styledRow, List.length_append, List.length_zipWith, List.length_drop]
  omega

theorem styledRows_length (rl : List (Row × Str)) :
    ∀ b1 b2, (styledRows b1 b2 rl).length = rl.length := by
  induction rl with
  | nil => intro b1 b2; rfl
  | cons p rest ih =>
    intro b1 b2
    obtain ⟨r, l⟩ := p
    simp [styledRows, ih]

/-! Table-locator lemmas. -/

theorem get_table_first (pre : List Shape) (gf : GraphicFrame) (post : List Shape)
    (h : ∀ s ∈ pre, s.has_table = false) :
    get_table (pre ++ .tbl gf :: post) = .ok gf := by
  induction pre with
  | nil => rfl
  | cons s rest ih =>
    cases s with
    | tbl g => exact absurd (h _ (List.mem_cons_self _ _)) (by simp [Shape.has_table])
    | other =>
      simp only [List.cons_append, get_table]
      exact ih (fun s hs => h s (List.mem_cons_of_mem _ hs))

theorem get_table_missing (shapes : List Shape)
    (h : ∀ s ∈ shapes, s.has_table = false) :
    get_table shapes = .error (.dataSetError missingTableMsg) := by
  induction shapes with
  | nil => rfl
  | cons s rest ih =>
    cases s with
    | tbl g => exact absurd (h _ (List.mem_cons_self _ _)) (by simp [Shape.has_table])
    | other =>
      simp only [get_table]
      exact ih (fun s hs => h s (List.mem_cons_of_mem _ hs))

theorem get_table_replaceTable (shapes : List Shape) (gf g' : GraphicFrame)
    (h : get_table shapes = .ok gf) :
    get_table (replaceTable shapes g') = .ok g' := by
  induction shapes with
  | nil => simp [get_table] at h
  | cons s rest ih =>
    cases s with
    | tbl g => rfl
    | other =>
      simp only [get_table] at h
      simp only [replaceTable, get_table]
      exact ih h

/-! Template-pruning lemmas: deleting slides in descending index order. -/

theorem map_eraseIdx (f : α → β) :
    ∀ (l : List α) (i : Nat), (l.eraseIdx i).map f = (l.map f).eraseIdx i
  | [], _ => rfl
  | _ :: _, 0 => rfl
  | a :: l, i + 1 => by
    simp only [List.eraseIdx, List.map_cons]
    rw [map_eraseIdx f l i]

theorem foldr_eraseIdx_shift :
    ∀ (j k : Nat) (m : List α), k + j ≤ m.length →
      ((List.range j).map (k + ·)).foldr (fun i s => s.eraseIdx i) m =
        m.take k ++ m.drop (k + j)
  | 0, k, m, _ => by simp
  | j + 1, k, m, h => by
    rw [List.range_succ_eq_map]
    simp only [List.map_cons, List.map_map, List.foldr_cons]
    have hc : List.map ((k + ·) ∘ Nat.succ) (List.range j) =
        List.map ((k + 1) + ·) (List.range j) := by
      apply List.map_congr_left
      intro t _
      simp only [Function.comp_apply]
      omega
    rw [hc, foldr_eraseIdx_shift j (k + 1) m (by omega)]
    have hlt : k < (m.take (k + 1)).length := by
      simp only [List.length_take]
      omega
    have e1 : (m.take (k + 1)).eraseIdx k = m.take k := by
      rw [List.eraseIdx_eq_take_drop_succ, List.take_take]
      rw [List.drop_eq_nil_of_le (by simp only [List.length_take]; omega)]
      have hmin : min k (k + 1) = k := by omega
      rw [hmin, List.append_nil]
    have e2 : (m.take (k + 1) ++ m.drop (k + 1 + j)).eraseIdx (k + 0) =
        (m.take (k + 1)).eraseIdx k ++ m.drop (k + 1 + j) := by
      rw [Nat.add_zero]
      exact List.eraseIdx_append_of_lt_length hlt _
    have e3 : k + 1 + j = k + (j + 1) := by omega
    rw [e2, e1, e3]

theorem range_eraseIdx_forty (m : Nat) :
    (List.range (41 + m)).eraseIdx 40 =
      List.range 40 ++ (List.range m).map (41 + ·) := by
  rw [List.range_add]
  rw [List.eraseIdx_append_of_lt_length (by simp)]
  congr 1

/-- Pushing the first projection out of the slide-deletion fold. -/
theorem foldl_eraseIdx_fst :
    ∀ (L : List (Nat × SlideEntry)) (init : List SlideEntry),
      L.foldl (fun s ie => s.eraseIdx ie.1) init =
        (L.map Prod.fst).foldl (fun s i => s.eraseIdx i) init
  | [], _ => rfl
  | ie :: L, init => by
    simp only [List.foldl_cons, List.map_cons]
    exact foldl_eraseIdx_fst L _

/-- Pushing the relationship-id projection out of the relationship fold. -/
theorem foldl_erase_rid :
    ∀ (L : List (Nat × SlideEntry)) (init : List Nat),
      L.foldl (fun r ie => r.erase ie.2.rId) init =
        (L.map (fun ie => ie.2.rId)).foldl (fun r v => r.erase v) init
  | [], _ => rfl
  | ie :: L, init => by
    simp only [List.foldl_cons, List.map_cons]
    exact foldl_erase_rid L _

/-- Splitting the pruning fold into its two record components. -/
theorem foldl_prune_split :
    ∀ (L : List (Nat × SlideEntry)) (p : Presentation),
      L.foldl (fun p ie =>
          { slides := p.slides.eraseIdx ie.1, rels := p.rels.erase ie.2.rId }) p =
        { slides := L.foldl (fun s ie => s.eraseIdx ie.1) p.slides
          rels := L.foldl (fun r ie => r.erase ie.2.rId) p.rels }
  | [], p => rfl
  | ie :: L, p => by
    simp only [List.foldl_cons]
    exact foldl_prune_split L _

/-- `_get_template` on a template whose slide 40 is `x`: the result holds
exactly the slide `x`, and the package relationships have had every removed
slide's `rId` erased (in descending slide order). -/
theorem get_template_eq (a b : List SlideEntry) (x : SlideEntry) (rels : List Nat)
    (ha : a.length = 40) :
    get_template ⟨a ++ x :: b, rels⟩ =
      .ok ⟨[x], (((a ++ b).map SlideEntry.rId).reverse).foldl
                  (fun r v => r.erase v) rels⟩ := by
  have hlen : (a ++ x :: b).length = 41 + b.length := by
    simp [ha]
    omega
  have hif : 40 < ((a ++ x :: b : List SlideEntry).enum).length := by
    simp only [List.enum_length, hlen]
    omega
  simp only [get_template, if_pos hif]
  rw [foldl_prune_split]
  have hs : ({ slides := a ++ x :: b, rels := rels } : Presentation).slides =
      a ++ x :: b := rfl
  have hrels : ({ slides := a ++ x :: b, rels := rels } : Presentation).rels =
      rels := rfl
  simp only [hs, hrels]
  congr 1
  congr 1
  · -- the slides component: descending-order deletion keeps exactly slide 40
    rw [foldl_eraseIdx_fst]
    rw [List.map_reverse, map_eraseIdx, List.enum_map_fst]
    rw [List.foldl_reverse, hlen, range_eraseIdx_forty, List.foldr_append]
    rw [foldr_eraseIdx_shift b.length 41 _ (by omega)]
    rw [List.drop_eq_nil_of_le (by omega), List.append_nil]
    have htake : (a ++ x :: b).take 41 = a ++ [x] := by
      have h41 : (41 : Nat) = a.length + 1 := by omega
      rw [h41, List.take_append]
      rfl
    rw [htake]
    have hr : List.range 40 = (List.range 40).map (0 + ·) := by
      simp
    rw [hr, foldr_eraseIdx_shift 40 0 _ (by simp [ha])]
    rw [List.take_zero, List.nil_append, Nat.zero_add]
    exact List.drop_left' (by simp [ha])
  · -- the rels component: one erase per removed slide, in descending order
    rw [foldl_erase_rid]
    congr 1
    rw [List.map_reverse]
    congr 1
    have hcomp : (fun ie : Nat × SlideEntry => ie.2.rId) =
        SlideEntry.rId ∘ (Prod.snd : Nat × SlideEntry → SlideEntry) := rfl
    rw [hcomp, ← List.map_map, map_eraseIdx, List.enum_map_snd]
    congr 1
    rw [List.eraseIdx_append_of_length_le (by omega)]
    have h0 : 40 - a.length = 0 := by omega
    rw [h0]
    rfl

/-- Erasing a list of keys from a duplicate-free list filters them out. -/
theorem foldl_erase_eq_filter :
    ∀ (xs L : List Nat), L.Nodup →
      xs.foldl (fun r v => r.erase v) L = L.filter (fun v => decide (¬ v ∈ xs))
  | [], L, _ => by simp
  | x :: xs, L, hnd => by
    simp only [List.foldl_cons]
    rw [foldl_erase_eq_filter xs (L.erase x) (List.Nodup.erase x hnd)]
    rw [List.Nodup.erase_eq_filter hnd x]
    rw [List.filter_filter]
    apply List.filter_congr
    intro a _
    by_cases h1 : a = x <;> by_cases h2 : a ∈ xs <;> simp [h1, h2]

/-- When the package relationships are exactly the slides' (duplicate-free)
relationship ids, pruning leaves only slide 40's id. -/
theorem rels_after_prune (a b : List SlideEntry) (x : SlideEntry)
    (hnd : ((a ++ x :: b).map SlideEntry.rId).Nodup) :
    (((a ++ b).map SlideEntry.rId).reverse).foldl (fun r v => r.erase v)
      ((a ++ x :: b).map SlideEntry.rId) = [x.rId] := by
  rw [foldl_erase_eq_filter _ _ hnd]
  have hnd' : (List.map SlideEntry.rId a ++ x.rId :: List.map SlideEntry.rId b).Nodup := by
    simpa using hnd
  have hx : x.rId ∉ List.map SlideEntry.rId a ++ List.map SlideEntry.rId b :=
    (List.nodup_cons.mp (List.nodup_middle.mp hnd')).1
  have hLsplit : (a ++ x :: b).map SlideEntry.rId =
      List.map SlideEntry.rId a ++ x.rId :: List.map SlideEntry.rId b := by
    simp
  rw [hLsplit, List.filter_append, List.filter_cons]
  have hA : (List.map SlideEntry.rId a).filter
      (fun v => decide (¬ v ∈ ((a ++ b).map SlideEntry.rId).reverse)) = [] := by
    apply List.filter_eq_nil_iff.mpr
    intro v hv
    simp only [List.mem_reverse, List.map_append, List.mem_append, decide_not,
      Bool.not_eq_eq_eq_not, Bool.not_true, decide_eq_false_iff_not, not_not]
    exact Or.inl hv
  have hB : (List.map SlideEntry.rId b).filter
      (fun v => decide (¬ v ∈ ((a ++ b).map SlideEntry.rId).reverse)) = [] := by
    apply List.filter_eq_nil_iff.mpr
    intro v hv
    simp only [List.mem_reverse, List.map_append, List.mem_append, decide_not,
      Bool.not_eq_eq_eq_not, Bool.not_true, decide_eq_false_iff_not, not_not]
    exact Or.inr hv
  have hxkeep : (decide (¬ x.rId ∈ ((a ++ b).map SlideEntry.rId).reverse)) = true := by
    simp only [List.mem_reverse, List.map_append, decide_not, Bool.not_eq_eq_eq_not,
      Bool.not_false, decide_eq_true_eq]
    simpa using hx
  rw [hA, hB, List.nil_append, if_pos hxkeep]

/-! Characterising a fully successful `_save`. -/

theorem saveBuild_ok (args : SaveArgsM) (df : DataFrame) (rId : Nat)
    (rels' : List Nat) (slide1 : Slide) (old_table : GraphicFrame)
    (header_row first_data_row second_data_row : Row) (likeH band1 band2 : Cell)
    (hidx : args.index = true)
    (h1 : header_row.cells[1]? = some likeH) (hH : likeH.runs ≠ [])
    (h2 : first_data_row.cells[0]? = some band1) (hb1 : band1.runs ≠ [])
    (h3 : second_data_row.cells[0]? = some band2) (hb2 : band2.runs ≠ []) :
    saveBuild args df rId rels' slide1 old_table
        header_row first_data_row second_data_row =
      .ok (expectedSave df rId rels' slide1 old_table header_row
        likeH band1 band2) := by
  have hcsv : to_csv df args.index = joinComma ([] :: df.columns) ::
      (df.index.zip df.rows).map (fun p => joinComma (p.1 :: p.2)) := by
    rw [hidx]
    simp [to_csv]
  simp only [saveBuild, hcsv, List.replicate_succ, List.zip_cons_cons, h1,
    format_cells_ok _ _ _ hH, h2, h3, format_rows_ok _ _ _ hb1 hb2,
    Except.bind, Except.map]
  rfl

theorem applyTitle_shapes (t : Option Str) (s : Slide) :
    (applyTitle t s).shapes = s.shapes := by
  cases t <;> rfl

/-- A fully successful `_save` call: the template decomposes around slide 40,
that slide's first table has at least three rows, the exemplar cells exist
and carry runs — then `_save` returns exactly the expected document. -/
theorem save_eq (a b : List SlideEntry) (x : SlideEntry) (rels : List Nat)
    (args : SaveArgsM) (df : DataFrame) (gf : GraphicFrame)
    (header_row first_data_row second_data_row : Row) (tailrows : List Row)
    (likeH band1 band2 : Cell)
    (ha : a.length = 40) (hidx : args.index = true)
    (hgt : get_table x.slide.shapes = .ok gf)
    (hrows : gf.table.rows =
      header_row :: first_data_row :: second_data_row :: tailrows)
    (h1 : header_row.cells[1]? = some likeH) (hH : likeH.runs ≠ [])
    (h2 : first_data_row.cells[0]? = some band1) (hb1 : band1.runs ≠ [])
    (h3 : second_data_row.cells[0]? = some band2) (hb2 : band2.runs ≠ []) :
    save ⟨a ++ x :: b, rels⟩ args df =
      .ok (expectedSave df x.rId
        ((((a ++ b).map SlideEntry.rId).reverse).foldl (fun r v => r.erase v) rels)
        (applyTitle args.title x.slide) gf header_row likeH band1 band2) := by
  simp only [save, hidx, Bool.not_true, Bool.false_eq_true, if_false,
    get_template_eq a b x rels ha, Except.bind, applyTitle_shapes, hgt, hrows]
  exact saveBuild_ok args df x.rId _ _ gf
    header_row first_data_row second_data_row likeH band1 band2
    hidx h1 hH h2 hb1 h3 hb2

/-! Observing the saved document. -/

theorem savedTable_expectedSave (df : DataFrame) (rId : Nat) (rels' : List Nat)
    (slide1 : Slide) (old_table gf0 : GraphicFrame) (header_row : Row)
    (likeH band1 band2 : Cell)
    (hgt : get_table slide1.shapes = .ok gf0) :
    savedTable (expectedSave df rId rels' slide1 old_table header_row
        likeH band1 band2) =
      some { rows := expectedRows df header_row likeH band1 band2 } := by
  simp only [savedTable, expectedSave]
  rw [get_table_replaceTable _ gf0 _ hgt]

theorem styledRows_cells_length :
    ∀ (rl : List (Row × Str)) (b1 b2 : Cell),
      (styledRows b1 b2 rl).map (fun r => r.cells.length) =
        rl.map (fun p => p.1.cells.length)
  | [], _, _ => rfl
  | (r, l) :: rest, b1, b2 => by
    simp only [styledRows, List.map_cons, styledRow_length]
    rw [styledRows_cells_length rest b2 b1]

theorem zip_replicate_map_fst (br : Row) (ls : List Str) :
    ((List.replicate ls.length br).zip ls).map (fun p => p.1.cells.length) =
      List.replicate ls.length br.cells.length := by
  have h : ((List.replicate ls.length br).zip ls).map (fun p => p.1.cells.length) =
      (((List.replicate ls.length br).zip ls).map Prod.fst).map
        (fun r => r.cells.length) := by
    rw [List.map_map]
    rfl
  rw [h, List.map_fst_zip _ _ (by simp), List.map_replicate]

/-- The shape observer for a rebuilt table: its number of rows and the cell
count of each row. -/
def tableShape (t : Table) : Nat × List Nat :=
  (t.rows.length, t.rows.map (fun r => r.cells.length))

theorem tableShape_expectedRows (df : DataFrame) (header_row : Row)
    (likeH band1 band2 : Cell) (hwf : df.index.length = df.rows.length) :
    tableShape { rows := expectedRows df header_row likeH band1 band2 } =
      (df.rows.length + 1,
        List.replicate (df.rows.length + 1) (df.columns.length + 1)) := by
  have hdl : ((df.index.zip df.rows).map
      (fun p => joinComma (p.1 :: p.2))).length = df.rows.length := by
    simp [List.length_zip, hwf]
  have hzip : (List.replicate df.rows.length
        (newBlankRow header_row.height (df.columns.length + 1))).zip
        ((df.index.zip df.rows).map (fun p => joinComma (p.1 :: p.2))) =
      (List.replicate ((df.index.zip df.rows).map
          (fun p => joinComma (p.1 :: p.2))).length
        (newBlankRow header_row.height (df.columns.length + 1))).zip
        ((df.index.zip df.rows).map (fun p => joinComma (p.1 :: p.2))) := by
    rw [hdl]
  simp only [tableShape, expectedRows, List.length_cons, List.map_cons,
    styledRows_length, styledRow_length, List.length_zip, List.length_replicate,
    hdl, hwf]
  rw [Prod.mk.injEq]
  refine ⟨by omega, ?_⟩
  rw [hzip, styledRows_cells_length, zip_replicate_map_fst, hdl]
  simp [newBlankRow, List.replicate_succ]

/-! Reading the rebuilt table back: cell texts and CSV inversion. -/

theorem styledCell_text (like c : Cell) (v : Str) (hc : c.runs = []) :
    (styledCell like c v).text = v := by
  simp [styledCell, Cell.text, hc]

theorem zipWith_blank_texts (like : Cell) :
    ∀ (vals : List Str) (n : Nat), vals.length = n →
      (List.zipWith (styledCell like) (List.replicate n blankCell) vals).map
        Cell.text = vals
  | [], n, h => by
    cases h
    rfl
  | v :: vs, n, h => by
    cases n with
    | zero => simp at h
    | succ m =>
      rw [List.replicate_succ, List.zipWith_cons_cons, List.map_cons]
      rw [styledCell_text like blankCell v rfl]
      rw [zipWith_blank_texts like vs m (by simpa using h)]

theorem styledRow_texts (like : Cell) (hh n : Nat) (line : Str)
    (hlen : (splitComma line).length = n) :
    (styledRow like (newBlankRow hh n) line).cells.map Cell.text =
      splitComma line := by
  simp only [styledRow, newBlankRow, List.map_append]
  rw [List.drop_eq_nil_of_le (by simp [hlen])]
  rw [zipWith_blank_texts like (splitComma line) n hlen]
  simp

theorem styledRows_texts (hh n : Nat) :
    ∀ (ls : List Str) (b1 b2 : Cell),
      (∀ l ∈ ls, (splitComma l).length = n) →
      (styledRows b1 b2
          ((List.replicate ls.length (newBlankRow hh n)).zip ls)).map
        (fun r => joinComma (r.cells.map Cell.text)) = ls
  | [], _, _, _ => rfl
  | l :: ls, b1, b2, hlen => by
    rw [List.length_cons, List.replicate_succ, List.zip_cons_cons]
    simp only [styledRows, List.map_cons]
    rw [styledRow_texts b1 hh n l (hlen l (List.mem_cons_self l ls)),
      joinComma_splitComma,
      styledRows_texts hh n ls b2 b1 (fun l' hl' => hlen l' (List.mem_cons_of_mem l hl'))]

theorem read_csv_to_csv (df : DataFrame)
    (hwf : df.index.length = df.rows.length)
    (hcol : ∀ s ∈ df.columns, ',' ∉ s)
    (hidx : ∀ s ∈ df.index, ',' ∉ s)
    (hval : ∀ r ∈ df.rows, ∀ s ∈ r, ',' ∉ s) :
    read_csv (to_csv df true) 0 = .ok df := by
  have hx : ∀ p ∈ df.index.zip df.rows,
      splitComma (joinComma (p.1 :: p.2)) = p.1 :: p.2 := by
    intro p hp
    have h1 := List.of_mem_zip hp
    apply splitComma_joinComma
    · simp
    · intro f hf
      rcases List.mem_cons.mp hf with h | h
      · subst h
        exact hidx _ h1.1
      · exact hval _ h1.2 _ h
  have hhead : splitComma (joinComma ([] :: df.columns)) = [] :: df.columns := by
    apply splitComma_joinComma
    · simp
    · intro f hf
      rcases List.mem_cons.mp hf with h | h
      · subst h
        simp
      · exact hcol _ h
  have hto : to_csv df true = joinComma ([] :: df.columns) ::
      (df.index.zip df.rows).map (fun p => joinComma (p.1 :: p.2)) := by
    simp [to_csv]
  rw [hto]
  simp only [read_csv, List.map_map]
  refine congrArg Except.ok ?_
  have hdf : df = ⟨df.columns, df.index, df.rows⟩ := rfl
  rw [hdf, DataFrame.mk.injEq]
  refine ⟨?_, ?_, ?_⟩
  · rw [hhead]
    rfl
  · have hm : ((df.index.zip df.rows).map
        (fun p => (splitComma (joinComma (p.1 :: p.2))).getD 0 [])) =
        (df.index.zip df.rows).map Prod.fst := by
      apply List.map_congr_left
      intro p hp
      rw [hx p hp]
      rfl
    rw [show ((fun l => (splitComma l).getD 0 []) ∘
          fun p : Str × List Str => joinComma (p.1 :: p.2)) =
        (fun p : Str × List Str =>
          (splitComma (joinComma (p.1 :: p.2))).getD 0 []) from rfl]
    rw [hm, List.map_fst_zip _ _ (by omega)]
  · have hm : ((df.index.zip df.rows).map
        (fun p => (splitComma (joinComma (p.1 :: p.2))).eraseIdx 0)) =
        (df.index.zip df.rows).map Prod.snd := by
      apply List.map_congr_left
      intro p hp
      rw [hx p hp]
      rfl
    rw [show ((fun l => (splitComma l).eraseIdx 0) ∘
          fun p : Str × List Str => joinComma (p.1 :: p.2)) =
        (fun p : Str × List Str =>
          (splitComma (joinComma (p.1 :: p.2))).eraseIdx 0) from rfl]
    rw [hm, List.map_snd_zip _ _ (by omega)]

/-- Serialising the freshly rebuilt table back to comma-separated lines gives
back exactly the CSV text that was written into it. -/
theorem expectedRows_texts (df : DataFrame) (header_row : Row)
    (likeH band1 band2 : Cell)
    (hwf : df.index.length = df.rows.length)
    (hwc : ∀ r ∈ df.rows, r.length = df.columns.length)
    (hcol : ∀ s ∈ df.columns, ',' ∉ s)
    (hidx : ∀ s ∈ df.index, ',' ∉ s)
    (hval : ∀ r ∈ df.rows, ∀ s ∈ r, ',' ∉ s) :
    (expectedRows df header_row likeH band1 band2).map
      (fun r => joinComma (r.cells.map Cell.text)) = to_csv df true := by
  have hhead : splitComma (joinComma ([] :: df.columns)) = [] :: df.columns := by
    apply splitComma_joinComma
    · simp
    · intro f hf
      rcases List.mem_cons.mp hf with h | h
      · subst h
        simp
      · exact hcol _ h
  have hto : to_csv df true = joinComma ([] :: df.columns) ::
      (df.index.zip df.rows).map (fun p => joinComma (p.1 :: p.2)) := by
    simp [to_csv]
  have hdl : ((df.index.zip df.rows).map
      (fun p => joinComma (p.1 :: p.2))).length = df.rows.length := by
    simp [List.length_zip, hwf]
  have hlen : ∀ l ∈ (df.index.zip df.rows).map (fun p => joinComma (p.1 :: p.2)),
      (splitComma l).length = df.columns.length + 1 := by
    intro l hl
    rcases List.mem_map.mp hl with ⟨p, hp, rfl⟩
    have h1 := List.of_mem_zip hp
    have hx : splitComma (joinComma (p.1 :: p.2)) = p.1 :: p.2 := by
      apply splitComma_joinComma
      · simp
      · intro f hf
        rcases List.mem_cons.mp hf with h | h
        · subst h
          exact hidx _ h1.1
        · exact hval _ h1.2 _ h
    rw [hx]
    simp [hwc _ h1.2]
  rw [hto]
  simp only [expectedRows, List.map_cons]
  congr 1
  · rw [styledRow_texts likeH header_row.height (df.columns.length + 1)
      (joinComma ([] :: df.columns)) (by rw [hhead]; simp)]
    rw [joinComma_splitComma]
  · have hrep : List.replicate df.rows.length
        (newBlankRow header_row.height (df.columns.length + 1)) =
        List.replicate ((df.index.zip df.rows).map
          (fun p => joinComma (p.1 :: p.2))).length
          (newBlankRow header_row.height (df.columns.length + 1)) := by
      rw [hdl]
    rw [hrep]
    exact styledRows_texts header_row.height (df.columns.length + 1) _
      band1 band2 hlen

/-- Loading the document produced by a fully successful save, with the
default load options, returns the saved dataset. -/
theorem load_expectedSave (df : DataFrame) (rId : Nat) (rels' : List Nat)
    (slide1 : Slide) (old_table gf0 : GraphicFrame) (header_row : Row)
    (likeH band1 band2 : Cell)
    (hgt : get_table slide1.shapes = .ok gf0)
    (hwf : df.index.length = df.rows.length)
    (hwc : ∀ r ∈ df.rows, r.length = df.columns.length)
    (hcol : ∀ s ∈ df.columns, ',' ∉ s)
    (hidx : ∀ s ∈ df.index, ',' ∉ s)
    (hval : ∀ r ∈ df.rows, ∀ s ∈ r, ',' ∉ s) :
    load (expectedSave df rId rels' slide1 old_table header_row
      likeH band1 band2) { slide_name := 0, index_col := 0 } = .ok df := by
  simp only [load, expectedSave, List.getElem?_cons_zero]
  rw [get_table_replaceTable _ gf0 _ hgt]
  simp only [Bind.bind, Except.bind]
  rw [expectedRows_texts df header_row likeH band1 band2 hwf hwc hcol hidx hval]
  exact read_csv_to_csv df hwf hcol hidx hval

/-! Error paths of `_save`. -/

/-- Reducing `_save` to its table-rebuilding tail once the template prunes
cleanly and the exemplar table has at least three rows. -/
theorem save_to_saveBuild (a b : List SlideEntry) (x : SlideEntry)
    (rels : List Nat) (args : SaveArgsM) (df : DataFrame) (gf : GraphicFrame)
    (header_row first_data_row second_data_row : Row) (tailrows : List Row)
    (ha : a.length = 40) (hidx : args.index = true)
    (hgt : get_table x.slide.shapes = .ok gf)
    (hrows : gf.table.rows =
      header_row :: first_data_row :: second_data_row :: tailrows) :
    save ⟨a ++ x :: b, rels⟩ args df =
      saveBuild args df x.rId
        ((((a ++ b).map SlideEntry.rId).reverse).foldl (fun r v => r.erase v) rels)
        (applyTitle args.title x.slide) gf
        header_row first_data_row second_data_row := by
  simp only [save, hidx, Bool.not_true, Bool.false_eq_true, if_false,
    get_template_eq a b x rels ha, Except.bind, applyTitle_shapes, hgt, hrows]

/-- When the header row has no second cell, `header_row.cells[1]` raises
`IndexError`. -/
theorem saveBuild_err_header_missing (args : SaveArgsM) (df : DataFrame)
    (rId : Nat) (rels' : List Nat) (slide1 : Slide) (old_table : GraphicFrame)
    (header_row first_data_row second_data_row : Row)
    (hidx : args.index = true) (h1 : header_row.cells[1]? = none) :
    saveBuild args df rId rels' slide1 old_table
      header_row first_data_row second_data_row = .error .indexError := by
  have hcsv : to_csv df args.index = joinComma ([] :: df.columns) ::
      (df.index.zip df.rows).map (fun p => joinComma (p.1 :: p.2)) := by
    rw [hidx]
    simp [to_csv]
  simp only [saveBuild, hcsv, List.replicate_succ, List.zip_cons_cons, h1]

/-- When the header exemplar cell has no run, formatting the header row
raises `IndexError` at its first cell. -/
theorem saveBuild_err_header_norun (args : SaveArgsM) (df : DataFrame)
    (rId : Nat) (rels' : List Nat) (slide1 : Slide) (old_table : GraphicFrame)
    (header_row first_data_row second_data_row : Row) (likeH : Cell)
    (hidx : args.index = true) (h1 : header_row.cells[1]? = some likeH)
    (hruns : likeH.runs = []) :
    saveBuild args df rId rels' slide1 old_table
      header_row first_data_row second_data_row = .error .indexError := by
  have hcsv : to_csv df args.index = joinComma ([] :: df.columns) ::
      (df.index.zip df.rows).map (fun p => joinComma (p.1 :: p.2)) := by
    rw [hidx]
    simp [to_csv]
  simp only [saveBuild, hcsv, List.replicate_succ, List.zip_cons_cons, h1]
  rw [format_cells_err _ _ _ hruns (by simp [newBlankRow, List.replicate_succ])]
  rfl

/-- A template slide without any table makes `_save` fail with the
missing-table `DataSetError`. -/
theorem save_err_missing_table (a b : List SlideEntry) (x : SlideEntry)
    (rels : List Nat) (args : SaveArgsM) (df : DataFrame)
    (ha : a.length = 40) (hidx : args.index = true)
    (hshapes : ∀ s ∈ x.slide.shapes, s.has_table = false) :
    save ⟨a ++ x :: b, rels⟩ args df =
      .error (.dataSetError missingTableMsg) := by
  simp only [save, hidx, Bool.not_true, Bool.false_eq_true, if_false,
    get_template_eq a b x rels ha, Except.bind, applyTitle_shapes,
    get_table_missing _ hshapes]

/-- A slide without any table makes `_load` fail with the missing-table
`DataSetError`. -/
theorem load_err_missing_table (prs : Presentation) (args : LoadArgsM)
    (e : SlideEntry) (he : prs.slides[args.slide_name]? = some e)
    (hshapes : ∀ s ∈ e.slide.shapes, s.has_table = false) :
    load prs args = .error (.dataSetError missingTableMsg) := by
  simp only [load, he, get_table_missing _ hshapes, Bind.bind, Except.bind]

/-! Styling of the rebuilt table: header exemplar and band alternation. -/

theorem styleOf_styledCell_blank (like : Cell) (v : Str) :
    styleOf (styledCell like blankCell v) = appliedStyle like := by
  cases hf : like.fill <;>
    simp [styleOf, styledCell, appliedStyle, blankCell, hf]

theorem zipWith_blank_styles (like : Cell) :
    ∀ (vals : List Str) (n : Nat), n ≤ vals.length →
      (List.zipWith (styledCell like) (List.replicate n blankCell) vals).map
        styleOf = List.replicate n (appliedStyle like)
  | _, 0, _ => by simp
  | [], n + 1, h => by simp at h
  | v :: vs, n + 1, h => by
    rw [List.replicate_succ, List.zipWith_cons_cons, List.map_cons,
      styleOf_styledCell_blank, List.replicate_succ,
      zipWith_blank_styles like vs n (by simpa using h)]

theorem styledRow_styles (like : Cell) (hh n : Nat) (line : Str)
    (hlen : n ≤ (splitComma line).length) :
    (styledRow like (newBlankRow hh n) line).cells.map styleOf =
      List.replicate n (appliedStyle like) := by
  simp only [styledRow, newBlankRow, List.map_append]
  rw [List.drop_eq_nil_of_le (by simp [hlen])]
  rw [zipWith_blank_styles like (splitComma line) n hlen]
  simp

theorem specBand_swap (b1 b2 : Cell) (i : Nat) :
    specBand b2 b1 i = specBand b1 b2 (i + 1) := by
  rcases Nat.mod_two_eq_zero_or_one i with h | h
  · have h2 : (i + 1) % 2 = 1 := by omega
    simp [specBand, h, h2]
  · have h2 : (i + 1) % 2 = 0 := by omega
    simp [specBand, h, h2]

theorem styledRows_styles (hh n : Nat) :
    ∀ (ls : List Str) (b1 b2 : Cell),
      (∀ l ∈ ls, n ≤ (splitComma l).length) →
      (styledRows b1 b2
          ((List.replicate ls.length (newBlankRow hh n)).zip ls)).map
        (fun r => r.cells.map styleOf) =
        (List.range ls.length).map
          (fun i => List.replicate n (appliedStyle (specBand b1 b2 i)))
  | [], _, _, _ => rfl
  | l :: ls, b1, b2, hlen => by
    rw [List.length_cons, List.replicate_succ, List.zip_cons_cons]
    simp only [styledRows, List.map_cons]
    rw [styledRow_styles b1 hh n l (hlen l (List.mem_cons_self l ls))]
    rw [styledRows_styles hh n ls b2 b1
      (fun l' hl' => hlen l' (List.mem_cons_of_mem l hl'))]
    rw [List.range_succ_eq_map, List.map_cons, List.map_map]
    congr 1
    apply List.map_congr_left
    intro i _
    simp only [Function.comp_apply, Nat.succ_eq_add_one]
    rw [specBand_swap]

/-- The styles of all rows of the rebuilt table: the header row carries the
header exemplar's style in every cell, and data row `i` carries band
`i % 2`'s style in every cell. -/
theorem expectedRows_styles (df : DataFrame) (header_row : Row)
    (likeH band1 band2 : Cell)
    (hwf : df.index.length = df.rows.length)
    (hwc : ∀ r ∈ df.rows, r.length = df.columns.length) :
    (expectedRows df header_row likeH band1 band2).map
      (fun r => r.cells.map styleOf) =
      List.replicate (df.columns.length + 1) (appliedStyle likeH) ::
        (List.range df.rows.length).map
          (fun i => List.replicate (df.columns.length + 1)
            (appliedStyle (specBand band1 band2 i))) := by
  have hdl : ((df.index.zip df.rows).map
      (fun p => joinComma (p.1 :: p.2))).length = df.rows.length := by
    simp [List.length_zip, hwf]
  have hlen : ∀ l ∈ (df.index.zip df.rows).map (fun p => joinComma (p.1 :: p.2)),
      df.columns.length + 1 ≤ (splitComma l).length := by
    intro l hl
    rcases List.mem_map.mp hl with ⟨p, hp, rfl⟩
    have h1 := List.of_mem_zip hp
    have h2 := le_length_splitComma_joinComma (p.1 :: p.2) (by simp)
    simp only [List.length_cons, hwc _ h1.2] at h2
    exact h2
  simp only [expectedRows, List.map_cons]
  congr 1
  · apply styledRow_styles
    have h2 := le_length_splitComma_joinComma ([] :: df.columns) (by simp)
    simpa using h2
  · have hrep : List.replicate df.rows.length
        (newBlankRow header_row.height (df.columns.length + 1)) =
        List.replicate ((df.index.zip df.rows).map
          (fun p => joinComma (p.1 :: p.2))).length
          (newBlankRow header_row.height (df.columns.length + 1)) := by
      rw [hdl]
    rw [hrep, styledRows_styles header_row.height (df.columns.length + 1) _
      band1 band2 hlen, hdl]

/-! Concrete instances used by the witnesses: a 41-slide template whose
slide 40 carries a three-row exemplar table, and small datasets. -/

/-- A concrete font for the exemplar cells. -/
def fontEx : Font :=
  { name := "F".data, size := 12, bold := true, italic := false, themeColor := 3 }

/-- A concrete exemplar cell with one run. -/
def exCellEx (f : Fill) (t : Str) : Cell :=
  { fill := f, marginBottom := 1, marginLeft := 2, marginRight := 3, marginTop := 4
    runs := [{ text := t, font := fontEx }] }

/-- The exemplar table's header row (two cells; the formatter uses the
second). -/
def hdrRowEx : Row :=
  { height := 5, cells := [exCellEx .background "h0".data, exCellEx (.solid 7) "h1".data] }

/-- The exemplar table's first band row. -/
def band1RowEx : Row := { height := 5, cells := [exCellEx (.solid 1) "b1".data] }

/-- The exemplar table's second band row. -/
def band2RowEx : Row := { height := 5, cells := [exCellEx (.solid 2) "b2".data] }

/-- The exemplar table of the concrete template. -/
def exGfEx : GraphicFrame :=
  { left := 10, top := 20, width := 30, height := 40
    table := { rows := [hdrRowEx, band1RowEx, band2RowEx] } }

/-- The content slide of the concrete template. -/
def tblSlideEx : Slide :=
  { shapes := [Shape.other, Shape.tbl exGfEx], title := some "Table".data }

/-- A dummy (table-free) slide entry with relationship id `i`. -/
def dummyEntryEx (i : Nat) : SlideEntry :=
  { rId := i, slide := { shapes := [], title := none } }

/-- The forty slides preceding the content slide in the template. -/
def slidesAEx : List SlideEntry := (List.range 40).map dummyEntryEx

/-- The content slide's entry, at position 40. -/
def tblEntryEx : SlideEntry := { rId := 40, slide := tblSlideEx }

/-- One slide after the content slide. -/
def extraEntryEx : SlideEntry :=
  { rId := 41, slide := { shapes := [], title := none } }

/-- The concrete template's slide list. -/
def tmplSlidesEx : List SlideEntry := slidesAEx ++ tblEntryEx :: [extraEntryEx]

/-- A concrete 2-by-2 dataset without commas. -/
def dfEx : DataFrame :=
  { columns := ["a".data, "b".data]
    index := ["0".data, "1".data]
    rows := [["x".data, "y".data], ["u".data, "v".data]] }

/-- A concrete 5-row, 1-column dataset (to watch the bands alternate). -/
def df5Ex : DataFrame :=
  { columns := ["a".data]
    index := ["0".data, "1".data, "2".data, "3".data, "4".data]
    rows := [["p".data], ["q".data], ["r".data], ["s".data], ["t".data]] }

/-- The slide entry of a one-slide presentation holding a 2-by-3 text table
(used to observe which column `_load` treats as the index). -/
def tbl1Entry : SlideEntry :=
  { rId := 0
    slide := { shapes := [Shape.tbl
                 { left := 0, top := 0, width := 0, height := 0
                   table := { rows := [
                     { height := 1, cells := [exCellEx .other "i".data,
                         exCellEx .other "a".data, exCellEx .other "b".data] },
                     { height := 1, cells := [exCellEx .other "x".data,
                         exCellEx .other "1".data, exCellEx .other "2".data] }] } }]
               title := none } }

/-- A one-slide presentation around `tbl1Entry`. -/
def tbl1Prs : Presentation := { slides := [tbl1Entry], rels := [0] }

/-! The claims. -/

/-- C5: calling save with the emit-index-column option explicitly disabled
(`save_args={"index": False}`) fails with the assertion error, for every
template document, dataset and title option — in particular before any
template is opened or document state built. -/
theorem claim5_disabled_index_fatal (tmpl : Presentation) (df : DataFrame)
    (t : Option Str) :
    save tmpl (initSaveArgs (some { index := some false, title := t })) df =
      .error .assertionError := rfl

/-- C6: template loading keeps exactly the slide at the fixed position 40,
deleting all other slides (in descending index order) and dropping each
removed slide's relationship id from the package. -/
theorem claim6_template_pruning (a b : List SlideEntry) (x : SlideEntry)
    (ha : a.length = 40)
    (hnd : ((a ++ x :: b).map SlideEntry.rId).Nodup) :
    get_template ⟨a ++ x :: b, (a ++ x :: b).map SlideEntry.rId⟩ =
      .ok ⟨[x], [x.rId]⟩ := by
  rw [get_template_eq a b x _ ha]
  refine congrArg Except.ok ?_
  rw [Presentation.mk.injEq]
  exact ⟨rfl, rels_after_prune a b x hnd⟩

/-- Witness for C6 on a concrete 42-slide template. -/
theorem claim6_witness :
    slidesAEx.length = 40 ∧
    ((slidesAEx ++ tblEntryEx :: [extraEntryEx]).map SlideEntry.rId).Nodup ∧
    get_template ⟨slidesAEx ++ tblEntryEx :: [extraEntryEx],
        (slidesAEx ++ tblEntryEx :: [extraEntryEx]).map SlideEntry.rId⟩ =
      .ok ⟨[tblEntryEx], [tblEntryEx.rId]⟩ :=
  ⟨by decide, by decide,
    claim6_template_pruning slidesAEx [extraEntryEx] tblEntryEx
      (by decide) (by decide)⟩

/-- C9: the cell formatter pairs row cells with split values positionally,
processes exactly `min(cells, values)` pairs, and silently ignores the
extras on either side — the whole call succeeds whenever the exemplar has a
first run. -/
theorem claim9_formatter_truncation (row : Row) (line : Str) (like : Cell)
    (h : like.runs ≠ []) :
    format_cells row line like = .ok { row with
        cells := List.zipWith (styledCell like) row.cells (splitComma line) ++
          row.cells.drop (splitComma line).length } ∧
      (List.zipWith (styledCell like) row.cells (splitComma line)).length =
        min row.cells.length (splitComma line).length :=
  ⟨format_cells_ok row line like h, List.length_zipWith _ _ _⟩

/-- Witness for C9: three cells against two values — the third cell is left
untouched and no error occurs. -/
theorem claim9_witness :
    (exCellEx (.solid 9) "e".data).runs ≠ [] ∧
    (format_cells ⟨1, [blankCell, blankCell, blankCell]⟩ "u,v".data
        (exCellEx (.solid 9) "e".data) =
      .ok ⟨1, List.zipWith (styledCell (exCellEx (.solid 9) "e".data))
          [blankCell, blankCell, blankCell] (splitComma "u,v".data) ++
        List.drop (splitComma "u,v".data).length
          [blankCell, blankCell, blankCell]⟩ ∧
      (List.zipWith (styledCell (exCellEx (.solid 9) "e".data))
          [blankCell, blankCell, blankCell] (splitComma "u,v".data)).length =
        min 3 (splitComma "u,v".data).length) :=
  ⟨by decide,
    claim9_formatter_truncation ⟨1, [blankCell, blankCell, blankCell]⟩
      "u,v".data (exCellEx (.solid 9) "e".data) (by decide)⟩

/-- A one-slide presentation whose slide has shapes but no table. -/
def noTblPrs : Presentation :=
  { slides := [{ rId := 0, slide := { shapes := [Shape.other], title := none } }]
    rels := [0] }

/-- A slide-40 entry whose slide has shapes but no table. -/
def noTblEntryEx : SlideEntry :=
  { rId := 40, slide := { shapes := [Shape.other], title := none } }

/-- C4: the table locator scans the shapes in order and returns the first
table; with no table on the slide it raises the missing-table
`DataSetError`, and both the load path and the save path surface exactly
that error. -/
theorem claim4_table_locator :
    (∀ (pre : List Shape) (gf : GraphicFrame) (post : List Shape),
      (∀ s ∈ pre, s.has_table = false) →
      get_table (pre ++ .tbl gf :: post) = .ok gf) ∧
    (∀ shapes : List Shape, (∀ s ∈ shapes, s.has_table = false) →
      get_table shapes = .error (.dataSetError missingTableMsg)) ∧
    (∀ (prs : Presentation) (args : LoadArgsM) (e : SlideEntry),
      prs.slides[args.slide_name]? = some e →
      (∀ s ∈ e.slide.shapes, s.has_table = false) →
      load prs args = .error (.dataSetError missingTableMsg)) ∧
    (∀ (a b : List SlideEntry) (x : SlideEntry) (rels : List Nat)
      (args : SaveArgsM) (df : DataFrame),
      a.length = 40 → args.index = true →
      (∀ s ∈ x.slide.shapes, s.has_table = false) →
      save ⟨a ++ x :: b, rels⟩ args df = .error (.dataSetError missingTableMsg)) :=
  ⟨get_table_first, get_table_missing, load_err_missing_table,
    fun a b x rels args df ha hidx hsh =>
      save_err_missing_table a b x rels args df ha hidx hsh⟩

/-- Witness for C4: a concrete non-table shape before the table, a concrete
table-free slide for load, and a concrete table-free template slide for
save. -/
theorem claim4_witness :
    (∀ s ∈ [Shape.other], s.has_table = false) ∧
    slidesAEx.length = 40 ∧
    get_table ([Shape.other] ++ Shape.tbl exGfEx :: []) = .ok exGfEx ∧
    get_table [Shape.other] = .error (.dataSetError missingTableMsg) ∧
    load noTblPrs ⟨0, 0⟩ = .error (.dataSetError missingTableMsg) ∧
    save ⟨slidesAEx ++ noTblEntryEx :: [], [0]⟩ ⟨true, none⟩ dfEx =
      .error (.dataSetError missingTableMsg) :=
  ⟨by decide, by decide,
    claim4_table_locator.1 [Shape.other] exGfEx [] (by decide),
    claim4_table_locator.2.1 [Shape.other] (by decide),
    claim4_table_locator.2.2.1 noTblPrs ⟨0, 0⟩
      { rId := 0, slide := { shapes := [Shape.other], title := none } }
      (by decide) (by decide),
    claim4_table_locator.2.2.2 slidesAEx [] noTblEntryEx [0] ⟨true, none⟩ dfEx
      (by decide) rfl (by decide)⟩

/-- C8: a template whose exemplar table has fewer than three rows makes the
`header_row, first_data_row, second_data_row, *_` unpacking fail with the
built-in sequence error (`ValueError`), not with the dedicated
`DataSetError`. -/
theorem claim8_short_exemplar (a b : List SlideEntry) (x : SlideEntry)
    (rels : List Nat) (args : SaveArgsM) (df : DataFrame) (gf : GraphicFrame)
    (ha : a.length = 40) (hidx : args.index = true)
    (hgt : get_table x.slide.shapes = .ok gf)
    (hshort : gf.table.rows.length < 3) :
    save ⟨a ++ x :: b, rels⟩ args df = .error .valueError := by
  simp only [save, hidx, Bool.not_true, Bool.false_eq_true, if_false,
    get_template_eq a b x rels ha, Except.bind, applyTitle_shapes, hgt]
  cases hr : gf.table.rows with
  | nil => rfl
  | cons r1 rest1 =>
    cases rest1 with
    | nil => rfl
    | cons r2 rest2 =>
      cases rest2 with
      | nil => rfl
      | cons r3 rest3 =>
        rw [hr] at hshort
        simp only [List.length_cons] at hshort
        omega

/-- A two-row exemplar table (header plus one band row only). -/
def shortGfEx : GraphicFrame :=
  { left := 10, top := 20, width := 30, height := 40
    table := { rows := [hdrRowEx, band1RowEx] } }

/-- A slide-40 entry whose exemplar table has only two rows. -/
def shortEntryEx : SlideEntry :=
  { rId := 40, slide := { shapes := [Shape.tbl shortGfEx], title := none } }

/-- Witness for C8 on a two-row exemplar table. -/
theorem claim8_witness :
    slidesAEx.length = 40 ∧
    get_table shortEntryEx.slide.shapes = .ok shortGfEx ∧
    shortGfEx.table.rows.length < 3 ∧
    save ⟨slidesAEx ++ shortEntryEx :: [], [0]⟩ ⟨true, none⟩ dfEx =
      .error .valueError :=
  ⟨by decide, by decide, by decide,
    claim8_short_exemplar slidesAEx [] shortEntryEx [0] ⟨true, none⟩ dfEx
      shortGfEx (by decide) rfl (by decide) (by decide)⟩

/-- C10: the header-row styling exemplar is the cell at index 1 (not 0), and
the formatter reads that exemplar's first run — so a header row with a
single cell, or an exemplar cell without a run, makes save fail with
`IndexError` instead of producing output. -/
theorem claim10_header_exemplar_errors (a b : List SlideEntry) (x : SlideEntry)
    (rels : List Nat) (args : SaveArgsM) (df : DataFrame) (gf : GraphicFrame)
    (header_row first_data_row second_data_row : Row) (tailrows : List Row)
    (ha : a.length = 40) (hidx : args.index = true)
    (hgt : get_table x.slide.shapes = .ok gf)
    (hrows : gf.table.rows =
      header_row :: first_data_row :: second_data_row :: tailrows) :
    (header_row.cells.length = 1 →
      save ⟨a ++ x :: b, rels⟩ args df = .error .indexError) ∧
    (∀ likeH : Cell, header_row.cells[1]? = some likeH → likeH.runs = [] →
      save ⟨a ++ x :: b, rels⟩ args df = .error .indexError) := by
  constructor
  · intro hlen1
    rw [save_to_saveBuild a b x rels args df gf header_row first_data_row
      second_data_row tailrows ha hidx hgt hrows]
    exact saveBuild_err_header_missing _ _ _ _ _ _ _ _ _ hidx
      (List.getElem?_eq_none (by omega))
  · intro likeH h1 hruns
    rw [save_to_saveBuild a b x rels args df gf header_row first_data_row
      second_data_row tailrows ha hidx hgt hrows]
    exact saveBuild_err_header_norun _ _ _ _ _ _ _ _ _ likeH hidx h1 hruns

/-- A header row with a single cell (so index 1 is out of range, even though
index 0 exists). -/
def oneCellHdrRowEx : Row := { height := 5, cells := [exCellEx .background "h0".data] }

/-- An exemplar table whose header row has a single cell. -/
def oneCellGfEx : GraphicFrame :=
  { left := 10, top := 20, width := 30, height := 40
    table := { rows := [oneCellHdrRowEx, band1RowEx, band2RowEx] } }

/-- A slide-40 entry whose exemplar header row has a single cell. -/
def oneCellEntryEx : SlideEntry :=
  { rId := 40, slide := { shapes := [Shape.tbl oneCellGfEx], title := none } }

/-- A header row whose second cell's first paragraph has no run. -/
def noRunHdrRowEx : Row :=
  { height := 5
    cells := [exCellEx .background "h0".data,
      { fill := .solid 7, marginBottom := 1, marginLeft := 2, marginRight := 3
        marginTop := 4, runs := [] }] }

/-- An exemplar table whose header exemplar cell carries no run. -/
def noRunGfEx : GraphicFrame :=
  { left := 10, top := 20, width := 30, height := 40
    table := { rows := [noRunHdrRowEx, band1RowEx, band2RowEx] } }

/-- A slide-40 entry whose header exemplar cell carries no run. -/
def noRunEntryEx : SlideEntry :=
  { rId := 40, slide := { shapes := [Shape.tbl noRunGfEx], title := none } }

/-- Witness for C10 on two concrete templates: a one-cell header row and a
run-less header exemplar. -/
theorem claim10_witness :
    oneCellHdrRowEx.cells.length = 1 ∧
    save ⟨slidesAEx ++ oneCellEntryEx :: [], [0]⟩ ⟨true, none⟩ dfEx =
      .error .indexError ∧
    noRunHdrRowEx.cells[1]? = some { fill := .solid 7, marginBottom := 1
                                     marginLeft := 2, marginRight := 3
                                     marginTop := 4, runs := [] } ∧
    save ⟨slidesAEx ++ noRunEntryEx :: [], [0]⟩ ⟨true, none⟩ dfEx =
      .error .indexError :=
  ⟨by decide,
    (claim10_header_exemplar_errors slidesAEx [] oneCellEntryEx [0] ⟨true, none⟩
      dfEx oneCellGfEx oneCellHdrRowEx band1RowEx band2RowEx []
      (by decide) rfl (by decide) (by decide)).1 (by decide),
    by decide,
    (claim10_header_exemplar_errors slidesAEx [] noRunEntryEx [0] ⟨true, none⟩
      dfEx noRunGfEx noRunHdrRowEx band1RowEx band2RowEx []
      (by decide) rfl (by decide) (by decide)).2
      { fill := .solid 7, marginBottom := 1, marginLeft := 2, marginRight := 3
        marginTop := 4, runs := [] } (by decide) rfl⟩

/-- C1: on a well-formed template, saving a comma-free dataset and loading
it back with the default load options returns exactly the saved dataset —
same values, same index, same column order. -/
theorem claim1_roundtrip (a b : List SlideEntry) (x : SlideEntry)
    (rels : List Nat) (args : SaveArgsM) (df : DataFrame) (gf : GraphicFrame)
    (header_row first_data_row second_data_row : Row) (tailrows : List Row)
    (likeH band1 band2 : Cell)
    (ha : a.length = 40) (haidx : args.index = true)
    (hgt : get_table x.slide.shapes = .ok gf)
    (hrows : gf.table.rows =
      header_row :: first_data_row :: second_data_row :: tailrows)
    (h1 : header_row.cells[1]? = some likeH) (hH : likeH.runs ≠ [])
    (h2 : first_data_row.cells[0]? = some band1) (hb1 : band1.runs ≠ [])
    (h3 : second_data_row.cells[0]? = some band2) (hb2 : band2.runs ≠ [])
    (hwf : df.index.length = df.rows.length)
    (hwc : ∀ r ∈ df.rows, r.length = df.columns.length)
    (hcol : ∀ s ∈ df.columns, ',' ∉ s)
    (hidxc : ∀ s ∈ df.index, ',' ∉ s)
    (hval : ∀ r ∈ df.rows, ∀ s ∈ r, ',' ∉ s) :
    (save ⟨a ++ x :: b, rels⟩ args df).bind
      (fun p => load p (initLoadArgs none)) = .ok df := by
  rw [save_eq a b x rels args df gf header_row first_data_row second_data_row
    tailrows likeH band1 band2 ha haidx hgt hrows h1 hH h2 hb1 h3 hb2]
  simp only [Except.bind]
  exact load_expectedSave df x.rId _ (applyTitle args.title x.slide) gf gf
    header_row likeH band1 band2
    (by rw [applyTitle_shapes]; exact hgt) hwf hwc hcol hidxc hval

/-- Witness for C1: a 2-by-2 dataset through the concrete template. -/
theorem claim1_witness :
    slidesAEx.length = 40 ∧
    get_table tblEntryEx.slide.shapes = .ok exGfEx ∧
    exGfEx.table.rows = hdrRowEx :: band1RowEx :: band2RowEx :: [] ∧
    hdrRowEx.cells[1]? = some (exCellEx (.solid 7) "h1".data) ∧
    (exCellEx (.solid 7) "h1".data).runs ≠ [] ∧
    (∀ r ∈ dfEx.rows, r.length = dfEx.columns.length) ∧
    (∀ s ∈ dfEx.columns, ',' ∉ s) ∧
    (save ⟨slidesAEx ++ tblEntryEx :: [extraEntryEx], [0]⟩
        ⟨true, some "T".data⟩ dfEx).bind
      (fun p => load p (initLoadArgs none)) = .ok dfEx :=
  ⟨by decide, by decide, by decide, by decide, by decide, by decide, by decide,
    claim1_roundtrip slidesAEx [extraEntryEx] tblEntryEx [0]
      ⟨true, some "T".data⟩ dfEx exGfEx hdrRowEx band1RowEx band2RowEx []
      (exCellEx (.solid 7) "h1".data) (exCellEx (.solid 1) "b1".data)
      (exCellEx (.solid 2) "b2".data)
      (by decide) rfl (by decide) (by decide) (by decide) (by decide)
      (by decide) (by decide) (by decide) (by decide) (by decide)
      (by decide) (by decide) (by decide) (by decide)⟩

/-- C2: the replacement table built during save has exactly `rows(data)+1`
rows, each with `columns(data)+1` cells — including the zero-row boundary
case, which yields a one-row table. -/
theorem claim2_table_shape (a b : List SlideEntry) (x : SlideEntry)
    (rels : List Nat) (args : SaveArgsM) (df : DataFrame) (gf : GraphicFrame)
    (header_row first_data_row second_data_row : Row) (tailrows : List Row)
    (likeH band1 band2 : Cell)
    (ha : a.length = 40) (haidx : args.index = true)
    (hgt : get_table x.slide.shapes = .ok gf)
    (hrows : gf.table.rows =
      header_row :: first_data_row :: second_data_row :: tailrows)
    (h1 : header_row.cells[1]? = some likeH) (hH : likeH.runs ≠ [])
    (h2 : first_data_row.cells[0]? = some band1) (hb1 : band1.runs ≠ [])
    (h3 : second_data_row.cells[0]? = some band2) (hb2 : band2.runs ≠ [])
    (hwf : df.index.length = df.rows.length) :
    (save ⟨a ++ x :: b, rels⟩ args df).map
      (fun p => (savedTable p).map tableShape) =
      .ok (some (df.rows.length + 1,
        List.replicate (df.rows.length + 1) (df.columns.length + 1))) := by
  rw [save_eq a b x rels args df gf header_row first_data_row second_data_row
    tailrows likeH band1 band2 ha haidx hgt hrows h1 hH h2 hb1 h3 hb2]
  simp only [Except.map]
  rw [savedTable_expectedSave df x.rId _ (applyTitle args.title x.slide) gf gf
    header_row likeH band1 band2 (by rw [applyTitle_shapes]; exact hgt)]
  rw [Option.map_some']
  rw [tableShape_expectedRows df header_row likeH band1 band2 hwf]

/-- A zero-row dataset with one column. -/
def df0Ex : DataFrame := { columns := ["a".data], index := [], rows := [] }

/-- Witness for C2 at the boundary case of a zero-row dataset: one header
row, two cells. -/
theorem claim2_witness :
    slidesAEx.length = 40 ∧
    df0Ex.index.length = df0Ex.rows.length ∧
    (save ⟨slidesAEx ++ tblEntryEx :: [extraEntryEx], [0]⟩ ⟨true, none⟩
        df0Ex).map (fun p => (savedTable p).map tableShape) =
      .ok (some (1, List.replicate 1 2)) :=
  ⟨by decide, by decide,
    claim2_table_shape slidesAEx [extraEntryEx] tblEntryEx [0] ⟨true, none⟩
      df0Ex exGfEx hdrRowEx band1RowEx band2RowEx []
      (exCellEx (.solid 7) "h1".data) (exCellEx (.solid 1) "b1".data)
      (exCellEx (.solid 2) "b2".data)
      (by decide) rfl (by decide) (by decide) (by decide) (by decide)
      (by decide) (by decide) (by decide) (by decide) (by decide)⟩

/-- C3: in the saved table the header row is styled from the header
exemplar, and data row `i` (0-based) is styled from band exemplar `i mod 2`
— bands alternate starting from the first band exemplar. -/
theorem claim3_band_alternation (a b : List SlideEntry) (x : SlideEntry)
    (rels : List Nat) (args : SaveArgsM) (df : DataFrame) (gf : GraphicFrame)
    (header_row first_data_row second_data_row : Row) (tailrows : List Row)
    (likeH band1 band2 : Cell)
    (ha : a.length = 40) (haidx : args.index = true)
    (hgt : get_table x.slide.shapes = .ok gf)
    (hrows : gf.table.rows =
      header_row :: first_data_row :: second_data_row :: tailrows)
    (h1 : header_row.cells[1]? = some likeH) (hH : likeH.runs ≠ [])
    (h2 : first_data_row.cells[0]? = some band1) (hb1 : band1.runs ≠ [])
    (h3 : second_data_row.cells[0]? = some band2) (hb2 : band2.runs ≠ [])
    (hwf : df.index.length = df.rows.length)
    (hwc : ∀ r ∈ df.rows, r.length = df.columns.length) :
    (save ⟨a ++ x :: b, rels⟩ args df).map
      (fun p => (savedTable p).map
        (fun t => t.rows.map (fun r => r.cells.map styleOf))) =
      .ok (some (List.replicate (df.columns.length + 1) (appliedStyle likeH) ::
        (List.range df.rows.length).map
          (fun i => List.replicate (df.columns.length + 1)
            (appliedStyle (specBand band1 band2 i))))) := by
  rw [save_eq a b x rels args df gf header_row first_data_row second_data_row
    tailrows likeH band1 band2 ha haidx hgt hrows h1 hH h2 hb1 h3 hb2]
  simp only [Except.map]
  rw [savedTable_expectedSave df x.rId _ (applyTitle args.title x.slide) gf gf
    header_row likeH band1 band2 (by rw [applyTitle_shapes]; exact hgt)]
  rw [Option.map_some']
  simp only []
  rw [expectedRows_styles df header_row likeH band1 band2 hwf hwc]

/-- Witness for C3 on a 5-row dataset: bands alternate 1, 2, 1, 2, 1. -/
theorem claim3_witness :
    slidesAEx.length = 40 ∧
    band1RowEx.cells[0]? = some (exCellEx (.solid 1) "b1".data) ∧
    band2RowEx.cells[0]? = some (exCellEx (.solid 2) "b2".data) ∧
    (save ⟨slidesAEx ++ tblEntryEx :: [extraEntryEx], [0]⟩ ⟨true, none⟩
        df5Ex).map (fun p => (savedTable p).map
        (fun t => t.rows.map (fun r => r.cells.map styleOf))) =
      .ok (some (List.replicate 2 (appliedStyle (exCellEx (.solid 7) "h1".data)) ::
        (List.range 5).map (fun i => List.replicate 2
          (appliedStyle (specBand (exCellEx (.solid 1) "b1".data)
            (exCellEx (.solid 2) "b2".data) i))))) :=
  ⟨by decide, by decide, by decide,
    claim3_band_alternation slidesAEx [extraEntryEx] tblEntryEx [0]
      ⟨true, none⟩ df5Ex exGfEx hdrRowEx band1RowEx band2RowEx []
      (exCellEx (.solid 7) "h1".data) (exCellEx (.solid 1) "b1".data)
      (exCellEx (.solid 2) "b2".data)
      (by decide) rfl (by decide) (by decide) (by decide) (by decide)
      (by decide) (by decide) (by decide) (by decide) (by decide) (by decide)⟩

/-- C7 counterexample: the claim says the index-column option is forced to
column 0 regardless of user options, but a user-supplied
`load_args={"index_col": 2}` survives the `__init__` merge and makes
`_load` treat column 2 as the index, producing a different dataset than the
default options do. -/
theorem claim7_counterexample :
    (initLoadArgs (some { slide_name := none, index_col := some 2 })).index_col
        = 2 ∧
    load tbl1Prs (initLoadArgs (some { slide_name := none, index_col := some 2 })) =
      .ok { columns := ["i".data, "a".data], index := ["2".data]
            rows := [["x".data, "1".data]] } ∧
    load tbl1Prs (initLoadArgs (some { slide_name := none, index_col := some 2 })) ≠
      load tbl1Prs (initLoadArgs none) :=
  ⟨rfl, by decide, by decide⟩

/-- C7 amended: `index_col` merely defaults to column 0 when the user does
not supply it; a user-supplied `index_col` overrides the default, and
`_load` parses the buffer with whatever merged value the adapter holds. -/
theorem claim7_amended :
    (initLoadArgs none).index_col = 0 ∧
    (∀ sn : Option Nat,
      (initLoadArgs (some { slide_name := sn, index_col := none })).index_col = 0) ∧
    (∀ (sn : Option Nat) (k : Nat),
      (initLoadArgs (some { slide_name := sn, index_col := some k })).index_col = k) ∧
    (∀ (prs : Presentation) (args : LoadArgsM) (e : SlideEntry),
      prs.slides[args.slide_name]? = some e →
      load prs args = (get_table e.slide.shapes).bind (fun gf =>
        read_csv (gf.table.rows.map (fun r => joinComma (r.cells.map Cell.text)))
          args.index_col)) := by
  refine ⟨rfl, fun sn => rfl, fun sn k => rfl, ?_⟩
  intro prs args e he
  simp only [load, he]
  rfl

/-- Witness for C7's amended claim at a concrete presentation and merged
options. -/
theorem claim7_witness :
    tbl1Prs.slides[(⟨0, 2⟩ : LoadArgsM).slide_name]? = some tbl1Entry ∧
    load tbl1Prs ⟨0, 2⟩ = (get_table tbl1Entry.slide.shapes).bind (fun gf =>
      read_csv (gf.table.rows.map (fun r => joinComma (r.cells.map Cell.text)))
        (⟨0, 2⟩ : LoadArgsM).index_col) :=
  ⟨by decide, claim7_amended.2.2.2 tbl1Prs ⟨0, 2⟩ tbl1Entry (by decide)⟩

end PPT
